import Mathlib

/-!
Verification of the contact-submission endpoint and the presentational
filter logic of the `nyc-portfolio2025` repository.

The repository's only non-presentational logic is:
* the `POST` route handler for `/api/contact`, which destructures
  `{ name, email, message }` from `await req.json().catch(() => ({}))`
  and answers `400 { ok: false, error: "Missing fields" }` when
  `!name || !email || !message`, else `200 { ok: true }`;
* the client-side `handleSubmit` of the `Contact` component, which
  serializes the three form values, issues the POST, and maps the
  response status to a user-visible status message — with the caveat that
  its success branch calls `reset()` on `e.currentTarget` after the
  `await`, where React has already nulled it, so the thrown TypeError
  diverts the success path into the `catch`;
* the `Projects` component's category filter
  `active === "All" ? all : all.filter((p) => p.cat === active)`.

The embedding models JavaScript values carried in the parsed JSON body by
an inductive `JSValue` whose `truthy` predicate follows JavaScript
truthiness (`undefined`, `null`, `false`, `0`, and `""` are falsy).
Parsing of the raw request body is modelled by an `Option ContactBody`
argument: `none` is a body `req.json()` rejected on, in which case the
`.catch(() => ({}))` fallback yields the empty record, whose destructured
fields are all `undefined`.
-/

/-- A JavaScript value as it can appear in a field of the parsed JSON
request body.  Numbers are modelled by `Int`, which suffices for the
truthiness distinctions the handler makes. -/
inductive JSValue where
  | undefined : JSValue
  | null : JSValue
  | bool : Bool → JSValue
  | num : Int → JSValue
  | str : String → JSValue
deriving DecidableEq, Repr

/-- JavaScript truthiness, as tested by `!x` in the handler's guard:
`undefined`, `null`, `false`, `0` and the empty string are falsy,
everything else is truthy. -/
def truthy : JSValue → Bool
  | .undefined => false
  | .null => false
  | .bool b => b
  | .num n => n != 0
  | .str s => s != ""

/-- The parsed request body as seen by the destructuring
`const { name, email, message } = ...`: the three destructured fields,
plus any further properties of the JSON object (`extra`), which the
destructuring never reads. -/
structure ContactBody where
  name : JSValue
  email : JSValue
  message : JSValue
  extra : List (String × JSValue)
deriving DecidableEq, Repr

/-- The record produced by the `.catch(() => ({} as any))` fallback:
destructuring `{}` yields `undefined` for every field. -/
def emptyRecord : ContactBody :=
  { name := .undefined, email := .undefined, message := .undefined, extra := [] }

/-- A primitive JSON value occurring in the handler's response bodies. -/
inductive JsonVal where
  | bool : Bool → JsonVal
  | str : String → JsonVal
deriving DecidableEq, Repr

/-- The response produced by `NextResponse.json(body, { status })`:
a status code and a JSON object body (a list of key/value pairs). -/
structure HttpResponse where
  status : Nat
  body : List (String × JsonVal)
deriving DecidableEq, Repr

/-- The handler's guard `!name || !email || !message` on the destructured
fields. -/
def missingFields (r : ContactBody) : Bool :=
  !truthy r.name || !truthy r.email || !truthy r.message

/-- The specification's Validator: a submission is valid exactly when the
handler's missing-field guard does not fire, i.e. when all three
destructured fields are truthy. -/
def validate (r : ContactBody) : Bool :=
  !missingFields r

/-- The `POST` route handler of `app/api/contact/route.ts`.  The argument
is the outcome of `await req.json()`: `none` when the promise rejected
(malformed body), in which case `.catch(() => ({} as any))` substitutes
the empty record.  The handler then returns
`NextResponse.json({ ok: false, error: "Missing fields" }, { status: 400 })`
when the guard fires and `NextResponse.json({ ok: true })` (status 200)
otherwise; it performs no other action. -/
def POST (parsed : Option ContactBody) : HttpResponse :=
  let r := parsed.getD emptyRecord
  if missingFields r then
    { status := 400, body := [("ok", .bool false), ("error", .str "Missing fields")] }
  else
    { status := 200, body := [("ok", .bool true)] }

/-- A sequence of independent invocations of the handler: the route module
holds no state, so each request is answered by `POST` alone. -/
def runRequests (reqs : List (Option ContactBody)) : List HttpResponse :=
  reqs.map POST

/-- A value returned by `FormData.get` for a field of the contact form:
a string, or `null` when the field is missing. -/
inductive FormValue where
  | str : String → FormValue
  | null : FormValue
deriving DecidableEq, Repr

/-- The three form values read by the client-side submit handler. -/
structure ContactForm where
  name : FormValue
  email : FormValue
  message : FormValue
deriving DecidableEq, Repr

/-- How a `FormData.get` result appears in the JSON body after
`JSON.stringify`: strings stay strings, `null` serializes to JSON null. -/
def FormValue.toJS : FormValue → JSValue
  | .str s => .str s
  | .null => .null

/-- The body built by the client:
`JSON.stringify({ name: data.get("name"), email: data.get("email"),
message: data.get("message") })` — exactly the three fields, nothing
else. -/
def serializeForm (f : ContactForm) : ContactBody :=
  { name := f.name.toJS, email := f.email.toJS, message := f.message.toJS, extra := [] }

/-- The `type` discriminant of the `Contact` component's status state. -/
inductive StatusType where
  | idle : StatusType
  | ok : StatusType
  | error : StatusType
deriving DecidableEq, Repr

/-- The `Contact` component's status state `{ type, message? }`. -/
structure Status where
  type : StatusType
  message : Option String
deriving DecidableEq, Repr

/-- `Response.ok`: true exactly when the status code is in 200..299. -/
def respOk (r : HttpResponse) : Bool :=
  200 ≤ r.status && r.status ≤ 299

/-- What one run of the client submit handler leaves behind: the status
state it set, and whether it called `form.reset()`. -/
structure ClientOutcome where
  status : Status
  formCleared : Bool
deriving DecidableEq, Repr

/-- The value of `e.currentTarget` read by the code after `await fetch`:
React sets a synthetic event's `currentTarget` back to `null` as soon as
the listener's synchronous dispatch returns, which for an async handler is
at its first `await`; the awaited continuation therefore reads `null`. -/
def currentTargetAfterAwait : Option Unit := none

/-- `(e.currentTarget as HTMLFormElement).reset()`: clears the form when
the receiver is a real element, throws a TypeError when it is `null`. -/
def resetCurrentTarget : Option Unit → Except Unit Unit
  | some u => Except.ok u
  | none => Except.error ()

/-- The client-side `handleSubmit` of the `Contact` component, abstracted
over the server (`respond`).  It serializes the three form values and
issues the POST; the `try` block, resumed after the `await`, throws on
`!res.ok`, and otherwise sets the acknowledgement status and calls
`e.currentTarget.reset()` — a call that throws a TypeError, because by the
time the awaited continuation runs React has nulled `currentTarget`, so
the form is never cleared.  Either throw lands in the `catch`, which sets
the generic error status; the outcome records the status the user is left
with (the last `setStatus` call) and whether `reset()` completed. -/
def handleSubmit (f : ContactForm) (respond : ContactBody → HttpResponse) : ClientOutcome :=
  let res := respond (serializeForm f)
  let tryBlock : Except Unit ClientOutcome :=
    if !respOk res then
      Except.error ()
    else
      match resetCurrentTarget currentTargetAfterAwait with
      | Except.ok _ =>
          Except.ok
            { status := { type := .ok, message := some "Thanks! I'll get back to you soon." },
              formCleared := true }
      | Except.error _ => Except.error ()
  match tryBlock with
  | Except.ok outcome => outcome
  | Except.error _ =>
      { status := { type := .error, message := some "Something went wrong. Email me directly instead." },
        formCleared := false }

/-- A project card of the `Projects` component. -/
structure Project where
  title : String
  cat : String
  thumb : String
  desc : String
  stack : List String
  github : Option String
  demo : Option String
deriving DecidableEq, Repr

/-- First entry of the `Projects` component's static list. -/
def roomer : Project :=
  { title := "Roomer – Find great roommates"
  , cat := "Web"
  , thumb := "https://images.unsplash.com/photo-1494526585095-c41746248156?q=80&w=1200&auto=format&fit=crop"
  , desc := "Listings app with maps, advanced filters, and secure auth."
  , stack := ["Next.js", "React", "Tailwind", "PostgreSQL", "Prisma", "Vercel"]
  , github := some "https://github.com/placeholder/roomer"
  , demo := some "https://example.com/roomer" }

/-- Second entry of the `Projects` component's static list. -/
def tradeOps : Project :=
  { title := "TradeOps – Real-time incident search"
  , cat := "Data"
  , thumb := "https://images.unsplash.com/photo-1483478550801-ceba5fe50e8e?q=80&w=1200&auto=format&fit=crop"
  , desc := "Unified search across Oracle/MS SQL for rapid root-cause analysis."
  , stack := ["Spring Boot", "React", "Oracle", "MS SQL", "Data JPA"]
  , github := some "https://github.com/placeholder/tradeops"
  , demo := some "https://example.com/tradeops" }

/-- Third entry of the `Projects` component's static list. -/
def gridPro : Project :=
  { title := "GridPro – 1M+ row data explorer"
  , cat := "Web"
  , thumb := "https://images.unsplash.com/photo-1551281044-8f785ba67e45?q=80&w=1200&auto=format&fit=crop"
  , desc := "AG Grid with server-side pagination and dynamic filtering."
  , stack := ["Angular", "AG Grid", "Node", "Kubernetes"]
  , github := some "https://github.com/placeholder/gridpro"
  , demo := some "https://example.com/gridpro" }

/-- Fourth entry of the `Projects` component's static list. -/
def infraPipelines : Project :=
  { title := "Infra Pipelines — CI/CD"
  , cat := "Infra"
  , thumb := "https://images.unsplash.com/photo-1518779578993-ec3579fee39f?q=80&w=1200&auto=format&fit=crop"
  , desc := "Containerized builds, preview deploys, and rollout safety via feature flags."
  , stack := ["Docker", "GitHub Actions", "K8s", "Vercel"]
  , github := none
  , demo := none }

/-- The static project list `all` of the `Projects` component. -/
def all : List Project := [roomer, tradeOps, gridPro, infraPipelines]

/-- The category buttons of the `Projects` component. -/
def categories : List String := ["All", "Web", "Data", "Infra"]

/-- The memoized `filtered` list:
`active === "All" ? all : all.filter((p) => p.cat === active)`. -/
def filteredProjects (active : String) : List Project :=
  if active == "All" then all else all.filter (fun p => p.cat == active)

/-- A field value counted as absent by the specification: the field is
missing from the object (destructures to `undefined`), or is `null`, or
is the empty string. -/
def absentLike (v : JSValue) : Prop :=
  v = .undefined ∨ v = .null ∨ v = .str ""

/-- The concrete valid submission of the specification's scenario 1. -/
def adaBody : ContactBody :=
  { name := .str "Ada", email := .str "ada@example.com", message := .str "Hello", extra := [] }

/-- Helper: the handler on a successfully parsed body, written as a single
conditional on the guard. -/
theorem POST_some (r : ContactBody) :
    POST (some r) =
      if missingFields r then
        { status := 400, body := [("ok", .bool false), ("error", .str "Missing fields")] }
      else
        { status := 200, body := [("ok", .bool true)] } := rfl

/-- Helper: the Validator accepts exactly when the guard does not fire. -/
theorem validate_eq_true_iff (r : ContactBody) :
    validate r = true ↔ missingFields r = false := by
  simp [validate]

/-- Helper: every absent-like field value is falsy. -/
theorem truthy_of_absentLike {v : JSValue} (h : absentLike v) : truthy v = false := by
  rcases h with h | h | h <;> simp [h, truthy]

/-- Helper: a non-empty string field value is truthy. -/
theorem truthy_str_of_ne {s : String} (h : s ≠ "") : truthy (.str s) = true := by
  simp [truthy, h]

/-- Claim C1: for every parsed body whose `name`, `email` and `message`
fields are each a non-empty string, the Validator accepts and the POST
handler returns the success response with body `{ ok: true }`. -/
theorem post_accepts_nonempty_strings (b : ContactBody) (ns es ms : String)
    (hn : b.name = .str ns) (hn0 : ns ≠ "")
    (he : b.email = .str es) (he0 : es ≠ "")
    (hm : b.message = .str ms) (hm0 : ms ≠ "") :
    validate b = true ∧
    POST (some b) = { status := 200, body := [("ok", .bool true)] } := by
  have hguard : missingFields b = false := by
    simp [missingFields, hn, he, hm, truthy_str_of_ne, hn0, he0, hm0]
  exact ⟨(validate_eq_true_iff b).mpr hguard, by rw [POST_some, hguard]; rfl⟩

/-- Witness for C1 at the specification's scenario 1 input. -/
theorem post_accepts_nonempty_strings_witness :
    validate adaBody = true ∧
    POST (some adaBody) = { status := 200, body := [("ok", .bool true)] } :=
  post_accepts_nonempty_strings adaBody "Ada" "ada@example.com" "Hello"
    rfl (by decide) rfl (by decide) rfl (by decide)

/-- Claim C2: whenever at least one of the three fields is absent
(destructures to `undefined`), `null`, or the empty string, the Validator
rejects and the handler returns status 400 with body
`{ ok: false, error: "Missing fields" }`. -/
theorem post_rejects_missing_field (b : ContactBody)
    (h : absentLike b.name ∨ absentLike b.email ∨ absentLike b.message) :
    validate b = false ∧
    POST (some b) =
      { status := 400, body := [("ok", .bool false), ("error", .str "Missing fields")] } := by
  have hguard : missingFields b = true := by
    rcases h with h | h | h <;>
      simp [missingFields, truthy_of_absentLike h]
  refine ⟨by simp [validate, hguard], by rw [POST_some, hguard]; rfl⟩

/-- Witness for C2 at the specification's scenario 2 input
(`email` empty). -/
theorem post_rejects_missing_field_witness :
    validate { name := .str "Ada", email := .str "", message := .str "Hello", extra := [] } = false ∧
    POST (some { name := .str "Ada", email := .str "", message := .str "Hello", extra := [] }) =
      { status := 400, body := [("ok", .bool false), ("error", .str "Missing fields")] } :=
  post_rejects_missing_field _ (Or.inr (Or.inl (Or.inr (Or.inr rfl))))

/-- Claim C3: a request body that `req.json()` fails to parse is handled
as the empty record — the `.catch` fallback — so the handler takes the
missing-fields path and returns the 400 response; the handler is a total
function and no parse exception reaches the caller. -/
theorem post_unparseable_as_empty_record :
    POST none = POST (some emptyRecord) ∧
    POST none =
      { status := 400, body := [("ok", .bool false), ("error", .str "Missing fields")] } :=
  ⟨rfl, rfl⟩

/-- Claim C4: on every valid submission the handler's entire output is the
success response with body exactly `{ ok: true }`; `POST` is a pure
function into `HttpResponse`, so producing this response is its only
effect — there is no email dispatch and no storage write. -/
theorem post_valid_submission_success_only (b : ContactBody)
    (h : validate b = true) :
    POST (some b) = { status := 200, body := [("ok", .bool true)] } := by
  rw [POST_some, (validate_eq_true_iff b).mp h]
  rfl

/-- Witness for C4 at the specification's scenario 1 input. -/
theorem post_valid_submission_success_only_witness :
    POST (some adaBody) = { status := 200, body := [("ok", .bool true)] } :=
  post_valid_submission_success_only adaBody (by decide)

/-- Claim C5: the Validator, and with it the handler's validation
decision, is a deterministic pure function: on equal input records the
results are equal. -/
theorem validate_deterministic (r1 r2 : ContactBody) (h : r1 = r2) :
    validate r1 = validate r2 ∧ POST (some r1) = POST (some r2) := by
  subst h
  exact ⟨rfl, rfl⟩

/-- Witness for C5: two invocations on the same concrete record. -/
theorem validate_deterministic_witness :
    validate adaBody = validate adaBody ∧ POST (some adaBody) = POST (some adaBody) :=
  validate_deterministic adaBody adaBody rfl

/-- Claim C6: the route is stateless — a run of requests is answered
pointwise by `POST`, so submitting the same valid body twice yields two
identical, independent success responses, and surrounding requests
(`pre`, `post`) never change the answer to a request. -/
theorem post_stateless_repeat (b : ContactBody) (h : validate b = true)
    (pre post : List (Option ContactBody)) :
    runRequests [some b, some b] =
      [{ status := 200, body := [("ok", .bool true)] },
       { status := 200, body := [("ok", .bool true)] }] ∧
    runRequests (pre ++ some b :: post) =
      runRequests pre ++ POST (some b) :: runRequests post := by
  have hb : POST (some b) = { status := 200, body := [("ok", .bool true)] } := by
    rw [POST_some, (validate_eq_true_iff b).mp h]
    rfl
  exact ⟨by simp [runRequests, hb], by simp [runRequests]⟩

/-- Witness for C6: the scenario 1 body submitted twice, and once between
two other requests. -/
theorem post_stateless_repeat_witness :
    runRequests [some adaBody, some adaBody] =
      [{ status := 200, body := [("ok", .bool true)] },
       { status := 200, body := [("ok", .bool true)] }] ∧
    runRequests ([none] ++ some adaBody :: [some emptyRecord]) =
      runRequests [none] ++ POST (some adaBody) :: runRequests [some emptyRecord] :=
  post_stateless_repeat adaBody (by decide) [none] [some emptyRecord]

/-- Claim C7: the claimed success behavior — acknowledgement message and
cleared form — does not occur in the code.  A fully valid form submitted
against the real handler receives a success response, yet `handleSubmit`
ends with the generic failure message and the form uncleared: `reset()`
is called on `e.currentTarget` after the `await`, where React has already
nulled it, and the resulting TypeError lands in the `catch`, whose
`setStatus` overwrites the acknowledgement. -/
theorem handleSubmit_success_response_shows_error :
    respOk (POST (some (serializeForm
      { name := .str "Ada", email := .str "ada@example.com", message := .str "Hello" }))) = true ∧
    handleSubmit { name := .str "Ada", email := .str "ada@example.com", message := .str "Hello" }
        (fun b => POST (some b)) =
      { status := { type := .error,
                    message := some "Something went wrong. Email me directly instead." },
        formCleared := false } := by
  constructor <;> decide

/-- Claim C8: the guard is JavaScript truthiness, not a string-type
check: any record whose three fields are truthy — of any type — is
accepted with `{ ok: true }`, and a falsy non-string value such as `0` or
`false` in any field is rejected with status 400. -/
theorem post_guard_is_truthiness (b : ContactBody) :
    ((truthy b.name && truthy b.email && truthy b.message) = true →
      POST (some b) = { status := 200, body := [("ok", .bool true)] }) ∧
    ((b.name = .num 0 ∨ b.name = .bool false ∨
      b.email = .num 0 ∨ b.email = .bool false ∨
      b.message = .num 0 ∨ b.message = .bool false) →
      POST (some b) =
        { status := 400,
          body := [("ok", .bool false), ("error", .str "Missing fields")] }) := by
  constructor
  · intro h
    simp only [Bool.and_eq_true] at h
    have hguard : missingFields b = false := by
      simp [missingFields, h.1.1, h.1.2, h.2]
    rw [POST_some, hguard]
    rfl
  · intro h
    have hguard : missingFields b = true := by
      rcases h with h | h | h | h | h | h <;> simp [missingFields, h, truthy]
    rw [POST_some, hguard]
    rfl

/-- Witness for C8: all-numeric truthy fields are accepted; a `0`-valued
email field is rejected. -/
theorem post_guard_is_truthiness_witness :
    POST (some { name := .num 7, email := .num 8, message := .bool true, extra := [] }) =
      { status := 200, body := [("ok", .bool true)] } ∧
    POST (some { name := .str "Ada", email := .num 0, message := .str "Hello", extra := [] }) =
      { status := 400,
        body := [("ok", .bool false), ("error", .str "Missing fields")] } :=
  ⟨(post_guard_is_truthiness _).1 (by decide),
   (post_guard_is_truthiness _).2 (by decide)⟩

/-- Claim C9: the handler reads only the three destructured fields: two
parsed bodies that agree on `name`, `email` and `message` — whatever
their other properties — receive identical responses. -/
theorem post_ignores_extra_properties (b1 b2 : ContactBody)
    (hn : b1.name = b2.name) (he : b1.email = b2.email)
    (hm : b1.message = b2.message) :
    POST (some b1) = POST (some b2) := by
  rw [POST_some, POST_some]
  simp [missingFields, hn, he, hm]

/-- Witness for C9: an extra `subject` property does not change the
response. -/
theorem post_ignores_extra_properties_witness :
    POST (some { name := .str "Ada", email := .str "ada@example.com",
                 message := .str "Hello", extra := [("subject", .str "Hi")] }) =
    POST (some adaBody) :=
  post_ignores_extra_properties _ adaBody rfl rfl rfl

/-- Claim C10: the category filter is a pure selection over the constant
list `all`: for "All" the displayed list is `all` itself, and for any
other active category it is a sublist of `all` (original order preserved)
containing exactly the projects whose `cat` equals that category. -/
theorem filteredProjects_selection :
    filteredProjects "All" = all ∧
    ∀ active : String, active ≠ "All" →
      (filteredProjects active).Sublist all ∧
      ∀ p : Project, p ∈ filteredProjects active ↔ (p ∈ all ∧ p.cat = active) := by
  refine ⟨rfl, ?_⟩
  intro active h
  have hbeq : (active == "All") = false := by
    simp [h]
  constructor
  · rw [filteredProjects, hbeq]
    simp
  · intro p
    rw [filteredProjects, hbeq]
    simp [List.mem_filter]

/-- Witness for C10 at the "Web" category and the first project. -/
theorem filteredProjects_selection_witness :
    (filteredProjects "Web").Sublist all ∧
    (roomer ∈ filteredProjects "Web" ↔ (roomer ∈ all ∧ roomer.cat = "Web")) :=
  ⟨(filteredProjects_selection.2 "Web" (by decide)).1,
   (filteredProjects_selection.2 "Web" (by decide)).2 roomer⟩
